import Mathlib

/-!
Verification development for the ComfyUI-BearCave browser extension scripts.

The repository attaches folder-selection interactions to named widgets on
named node types of a node-graph editor host.  The definitions below are a
shallow embedding of the scripts, translated function by function from the
sources:

* `bbhCallback` — the composed widget callback installed on the
  `project_base_path` widget by `src/web/bc_button_handler.js` (lines 34-56):
  a manual double-click detector that opens a folder-choice surface
  (FileFolderAPI when available, otherwise a free-text prompt) and then
  delegates to the prior callback.
* `fb3Callback` and `v3PickerCommit` — the corresponding composed callback of
  the first script in `src/web/bc_folder_browser.js` (lines 31-62) and the
  commit closure of its `showDirectoryPicker` branch (lines 37-48).
* `showManualInput` — the prompt-based manual entry of `src/unnamed/part_000`
  (lines 101-122).
* `dlgStep` / `dlgRun` — the modal dialog of `openFolderDialog`
  (`src/web/bc_folder_browser.js` lines 379-432; the OK, Cancel and input
  handlers are identical in `createFolderBrowserDialog` and in
  `BCFolderBrowser.createFolderDialog`).
* `dialogCommit` — the commit closure passed to `openFolderDialog`
  (`src/web/bc_folder_browser.js` lines 472-478).
* `fbOnNodeCreatedAttach`, `bbhAttach`, `fbGetExtraMenuOptions` — the widget
  lookups of `src/unnamed/part_002` (lines 22-38, 45-62) and of
  `src/web/bc_button_handler.js` (lines 24-61).
* `waitStep` / `waitRun` — the `waitForAPI` polling loop of
  `src/unnamed/part_001` (lines 639-669).
* `bbhBeforeRegisterNodeDef`, `fb3BeforeRegisterNodeDef`,
  `part0BeforeRegisterNodeDef` — the node-type gates of the
  `beforeRegisterNodeDef` hooks.
* `wrapOnNodeCreated`, `wrappedMouse` — the hook-wrapping shapes of
  `src/web/bc_button_handler.js` (lines 16-18, 64) and of the third script in
  `src/web/bc_folder_browser.js` (lines 461-480).

Environment inputs the host or the user supplies (availability of
FileFolderAPI, results of `prompt` and `showDirectoryPicker`, presence of a
prior handler, `Date.now()` timestamps) are explicit parameters; `null`
results are `Option.none`.  Observable side effects (opening a folder-choice
surface, invoking the pre-existing callback, marking the canvas dirty) are
recorded as explicit events or state fields.
-/

namespace BearCave

/-- A host widget: named value holder with an optional change callback.
Only the fields this code reads or writes are modelled; the presence of a
pre-existing callback is tracked as a flag and its invocations are recorded
as events. -/
structure Widget where
  name : String
  value : String
  hasCallback : Bool
  deriving Repr, DecidableEq

/-- The owning node, as far as the commit closures observe it: the
dirty-canvas flag set by `node.setDirtyCanvas(true, false)`. -/
structure CanvasNode where
  dirty : Bool
  deriving Repr, DecidableEq

/-- Observable events emitted by the handlers: a folder-choice surface being
opened (FileFolderAPI.open, window.prompt, showDirectoryPicker or the modal
dialog), an invocation of a pre-existing widget callback (recording the value
argument it received and the widget value at invocation time), an invocation
of a prior mouse handler, and the modal dialog being opened. -/
inductive UiEvent where
  | folderPromptOpened : UiEvent
  | originalCallback (arg : String) (widgetValueAtCall : String) : UiEvent
  | priorMouse : UiEvent
  | dialogOpened : UiEvent
  deriving Repr, DecidableEq

/-- Per-attachment detector state: the captured `lastClickTime` variable and
the value of the target widget. -/
structure ClickState where
  lastClickTime : Nat
  widgetValue : String
  deriving Repr, DecidableEq

/-- Embedding of the composed `project_base_path` widget callback installed by
`src/web/bc_button_handler.js` (lines 34-56).  On each invocation: if the gap
to the stored last click time is under 300, a folder-choice surface opens —
`app.FileFolderAPI.open` when `apiAvail`, else `window.prompt`; a non-null
prompt result (`promptResult = some path`, including the empty string) is
written to the widget.  Then `lastClickTime` is set to `now` and the prior
callback, when present, is invoked with the host-supplied `clickValue`. -/
def bbhCallback (apiAvail : Bool) (promptResult : Option String)
    (hasOriginal : Bool) (now : Nat) (clickValue : String)
    (s : ClickState) : ClickState × List UiEvent :=
  let res :=
    if now - s.lastClickTime < 300 then
      if apiAvail then
        (s, [UiEvent.folderPromptOpened])
      else
        match promptResult with
        | some path => ({ s with widgetValue := path }, [UiEvent.folderPromptOpened])
        | none => (s, [UiEvent.folderPromptOpened])
    else (s, [])
  let s2 := { res.1 with lastClickTime := now }
  (s2, res.2 ++ (if hasOriginal then [UiEvent.originalCallback clickValue s2.widgetValue] else []))

/-- Embedding of the composed widget callback of the first script in
`src/web/bc_folder_browser.js` (lines 31-62).  The double-click branch opens
`window.showDirectoryPicker` when available (its asynchronous `.then`
continuation is `v3PickerCommit` below), otherwise a `window.prompt` whose
non-null result is committed at once, invoking the prior callback inside the
branch as well.  In every case `lastClickTime` is then updated and the prior
callback is invoked with the host-supplied arguments. -/
def fb3Callback (hasPicker : Bool) (promptResult : Option String)
    (hasOriginal : Bool) (now : Nat) (clickValue : String)
    (s : ClickState) : ClickState × List UiEvent :=
  let res :=
    if now - s.lastClickTime < 300 then
      if hasPicker then
        (s, [UiEvent.folderPromptOpened])
      else
        match promptResult with
        | some path =>
          ({ s with widgetValue := path },
            UiEvent.folderPromptOpened ::
              (if hasOriginal then [UiEvent.originalCallback clickValue path] else []))
        | none => (s, [UiEvent.folderPromptOpened])
    else (s, [])
  let s2 := { res.1 with lastClickTime := now }
  (s2, res.2 ++ (if hasOriginal then [UiEvent.originalCallback clickValue s2.widgetValue] else []))

/-- Embedding of the `showDirectoryPicker().then(...)` commit of the first
script in `src/web/bc_folder_browser.js` (lines 37-48).  `pickerResult` is the
directory handle name, `none` when the picker was aborted; the follow-up
`prompt` result is committed only when truthy (non-null and non-empty), and
the prior callback is then applied to the original click arguments `args`
(whose value component is `clickArgValue`, not the new path).  The node is
not marked dirty on this path. -/
def v3PickerCommit (pickerResult : Option String) (promptResult : Option String)
    (clickArgValue : String) (hasOriginal : Bool)
    (w : Widget) (n : CanvasNode) : Widget × CanvasNode × List UiEvent :=
  match pickerResult with
  | none => (w, n, [])
  | some _dirName =>
    match promptResult with
    | some path =>
      if path = "" then (w, n, [])
      else
        ({ w with value := path }, n,
          if hasOriginal then [UiEvent.originalCallback clickArgValue path] else [])
    | none => (w, n, [])

/-- Executable model of the platform builtin `String.prototype.trim` used by
the scripts: drop leading and trailing whitespace characters. -/
def trimString (s : String) : String :=
  String.mk (((s.data.dropWhile Char.isWhitespace).reverse.dropWhile Char.isWhitespace).reverse)

/-- Embedding of `showManualInput` from `src/unnamed/part_000` (lines
101-122): the prompt result is committed, trimmed, only when it is non-null
and trims to a non-empty string. -/
def showManualInput (promptResult : Option String) (w : Widget) : Widget :=
  match promptResult with
  | some newPath =>
    if trimString newPath ≠ "" then { w with value := trimString newPath } else w
  | none => w

/-- A user action on the modal folder dialog: typing or a browse result
filling the text input, pressing OK, or pressing Cancel. -/
inductive DlgAction where
  | setInput (text : String) : DlgAction
  | pressOk : DlgAction
  | pressCancel : DlgAction
  deriving Repr, DecidableEq

/-- State of the modal dialog of `openFolderDialog`
(`src/web/bc_folder_browser.js` lines 379-432): the text input value, whether
the dialog surface is still attached to the document, and the path passed to
the commit callback, if any. -/
structure DlgState where
  input : String
  isOpen : Bool
  committed : Option String
  deriving Repr, DecidableEq

/-- The dialog opens with an empty input and no commit. -/
def dlgInit : DlgState := { input := "", isOpen := true, committed := none }

/-- One dialog interaction, following the OK handler (commit the trimmed
input and close when it is non-empty, otherwise alert and stay open), the
Cancel handler (close without committing) and input editing. -/
def dlgStep (s : DlgState) (a : DlgAction) : DlgState :=
  if s.isOpen then
    match a with
    | DlgAction.setInput text => { s with input := text }
    | DlgAction.pressOk =>
      if trimString s.input ≠ "" then
        { s with committed := some (trimString s.input), isOpen := false }
      else s
    | DlgAction.pressCancel => { s with isOpen := false }
  else s

/-- A full dialog interaction: a sequence of user actions from the freshly
opened dialog. -/
def dlgRun (acts : List DlgAction) : DlgState := acts.foldl dlgStep dlgInit

/-- Embedding of the commit closure passed to `openFolderDialog` by the third
script of `src/web/bc_folder_browser.js` (lines 472-478): set the widget
value to the selected path, invoke the pre-existing callback with the new
path when one exists, and mark the node canvas dirty. -/
def dialogCommit (w : Widget) (n : CanvasNode) (selectedPath : String) :
    Widget × CanvasNode × List UiEvent :=
  ({ w with value := selectedPath },
   { n with dirty := true },
   if w.hasCallback then [UiEvent.originalCallback selectedPath selectedPath] else [])

/-- A widget as seen by the attachment code: its name and whether the
attachment has wrapped its handler. -/
structure AttachWidget where
  name : String
  handlerWrapped : Bool
  deriving Repr, DecidableEq

/-- A node instance as seen by the attachment code: its widget list. -/
structure AttachNode where
  widgets : List AttachWidget
  deriving Repr, DecidableEq

/-- The widget-name predicate used by every lookup:
`w => w.name === "project_base_path"`. -/
def isProjectPathWidget (w : AttachWidget) : Bool :=
  w.name == "project_base_path"

/-- Embedding of the `onNodeCreated` body of `src/unnamed/part_002` (lines
22-38): look up the `project_base_path` widget; when found, append a browse
button widget via `this.addWidget`; when absent, report a diagnostic on the
console and leave the node untouched.  The function is total: the missing
widget is not an exception and node construction completes. -/
def fbOnNodeCreatedAttach (node : AttachNode) : AttachNode × List String :=
  match node.widgets.find? isProjectPathWidget with
  | some _ =>
    ({ widgets := node.widgets ++ [{ name := "📁 Browse Project Folder", handlerWrapped := false }] },
      [])
  | none => (node, ["🐻 Bear Cave: project_base_path widget not found"])

/-- Wrap the handler of the first widget matched by the lookup, as mutating
the object returned by `this.widgets.find` does. -/
def wrapNamed : List AttachWidget → List AttachWidget
  | [] => []
  | w :: ws =>
    if isProjectPathWidget w then { w with handlerWrapped := true } :: ws
    else w :: wrapNamed ws

/-- Embedding of the deferred attachment body of
`src/web/bc_button_handler.js` (lines 24-61): look up `project_base_path`;
when found, replace its callback with the composed double-click handler;
when absent, report a diagnostic and change nothing. -/
def bbhAttach (node : AttachNode) : AttachNode × List String :=
  match node.widgets.find? isProjectPathWidget with
  | some _ => ({ widgets := wrapNamed node.widgets }, [])
  | none => (node, ["🐻 Bear Cave: project_base_path widget not found"])

/-- A context-menu entry; the host list may also hold null separators, hence
the `Option` in the list type below. -/
structure MenuEntry where
  content : String
  deriving Repr, DecidableEq

/-- Embedding of `getExtraMenuOptions` of `src/unnamed/part_002` (lines
45-62): when the `project_base_path` widget exists, `menuOptions.unshift`
prepends the browse entry and a null separator; otherwise the menu is left
unchanged. -/
def fbGetExtraMenuOptions (node : AttachNode) (menu : List (Option MenuEntry)) :
    List (Option MenuEntry) :=
  match node.widgets.find? isProjectPathWidget with
  | some _ => some { content := "🐻 Browse Project Folder" } :: none :: menu
  | none => menu

/-- State of the `waitForAPI` polling loop of `src/unnamed/part_001` (lines
639-669): either still waiting (another `setTimeout(waitForAPI, 1000)` is
scheduled) or the browse button has been attached. -/
inductive PollState where
  | waiting : PollState
  | attached : PollState
  deriving Repr, DecidableEq

/-- One scheduled run of `waitForAPI`: when the capability is visible the
button is attached, otherwise the loop reschedules itself. -/
def waitStep (avail : Bool) : PollState → PollState
  | PollState.waiting => if avail then PollState.attached else PollState.waiting
  | PollState.attached => PollState.attached

/-- The polling loop after `n` scheduled runs, where `avail k` tells whether
`app.FileFolderAPI` (or its window fallbacks) is visible at run `k`. -/
def waitRun (avail : Nat → Bool) : Nat → PollState
  | 0 => PollState.waiting
  | n + 1 => waitStep (avail n) (waitRun avail n)

/-- Embedding of the `beforeRegisterNodeDef` gate of
`src/web/bc_button_handler.js` (lines 12-14); `src/unnamed/part_002` and
`src/unnamed/part_003` use the same single-target gate.  `setup` stands for
the prototype modifications performed inside the matching branch. -/
def bbhBeforeRegisterNodeDef {A : Type} (setup : A → A) (nodeName : String)
    (nt : A) : A :=
  if nodeName = "BC_LORA_DEFINE" then setup nt else nt

/-- Embedding of the `beforeRegisterNodeDef` gate of the third script of
`src/web/bc_folder_browser.js` (lines 439-448): `BC_LOAD_IMAGES` is
explicitly blocked with an early return, `BC_LORA_DEFINE` is set up, and any
other node type falls through untouched. -/
def fb3BeforeRegisterNodeDef {A : Type} (setup : A → A) (nodeName : String)
    (nt : A) : A :=
  if nodeName = "BC_LOAD_IMAGES" then nt
  else if nodeName = "BC_LORA_DEFINE" then setup nt
  else nt

/-- A node type prototype as the extensions touch it: the three hooks they
wrap (handler values of an abstract type `H`) and the widget definitions. -/
structure NodeProto (H : Type) where
  onNodeCreated : Option H
  onDblClick : Option H
  getExtraMenuOptions : Option H
  widgetNames : List String

/-- Embedding of the `beforeRegisterNodeDef` of `src/unnamed/part_000` (lines
12-99), which wraps `onNodeCreated`, `onDblClick` and `getExtraMenuOptions`
of its single target `BC_LORA_DEFINE` and touches nothing else. -/
def part0BeforeRegisterNodeDef {H : Type}
    (wrapCreate wrapDbl wrapMenu : Option H → Option H)
    (nodeName : String) (nt : NodeProto H) : NodeProto H :=
  if nodeName = "BC_LORA_DEFINE" then
    { nt with
      onNodeCreated := wrapCreate nt.onNodeCreated
      onDblClick := wrapDbl nt.onDblClick
      getExtraMenuOptions := wrapMenu nt.getExtraMenuOptions }
  else nt

/-- Embedding of the `onNodeCreated` wrapping of
`src/web/bc_button_handler.js` (lines 16-18 and 64): the prior hook, when
present, is applied first to the host-supplied node and its result is
returned; the additional attachment (`attach`, the deferred body) acts on the
node afterwards. -/
def wrapOnNodeCreated {N R : Type} (attach : N → N)
    (prior : Option (N → N × R)) (n : N) : N × Option R :=
  match prior with
  | some f =>
    let r := f n
    (attach r.1, some r.2)
  | none => (attach n, none)

/-- The pointer events the wrapped mouse handler inspects. -/
inductive MouseEventKind where
  | dblclick : MouseEventKind
  | pointerdown (detail : Nat) : MouseEventKind
  | other : MouseEventKind
  deriving Repr, DecidableEq

/-- The double-click test of the wrapped mouse handlers:
`event.type === "dblclick" || (event.type === "pointerdown" && event.detail === 2)`. -/
def isDoubleClick : MouseEventKind → Bool
  | MouseEventKind.dblclick => true
  | MouseEventKind.pointerdown detail => detail == 2
  | MouseEventKind.other => false

/-- Embedding of the wrapped `widget.mouse` handler of the third script of
`src/web/bc_folder_browser.js` (lines 461-480): the prior mouse handler, when
present, runs first with the host-supplied event, then a double-click opens
the folder dialog. -/
def wrappedMouse (hasOriginal : Bool) (ev : MouseEventKind) : List UiEvent :=
  (if hasOriginal then [UiEvent.priorMouse] else []) ++
    (if isDoubleClick ev then [UiEvent.dialogOpened] else [])

/-- Modelled from the spec (design note: store the prior handler reference,
invoke it and then perform the additional behavior): the prior-first variant
of the composed widget callback, for comparison with the source order of
`bbhCallback`, whose prior invocation comes last. -/
def bbhCallbackPriorFirst (apiAvail : Bool) (promptResult : Option String)
    (hasOriginal : Bool) (now : Nat) (clickValue : String)
    (s : ClickState) : ClickState × List UiEvent :=
  let evs0 := if hasOriginal then [UiEvent.originalCallback clickValue s.widgetValue] else []
  let res :=
    if now - s.lastClickTime < 300 then
      if apiAvail then
        (s, [UiEvent.folderPromptOpened])
      else
        match promptResult with
        | some path => ({ s with widgetValue := path }, [UiEvent.folderPromptOpened])
        | none => (s, [UiEvent.folderPromptOpened])
    else (s, [])
  ({ res.1 with lastClickTime := now }, evs0 ++ res.2)

/-- The number of folder-choice surfaces opened in an event trace. -/
def promptCount (evs : List UiEvent) : Nat :=
  evs.countP (fun e =>
    match e with
    | UiEvent.folderPromptOpened => true
    | _ => false)

/-- The composed callback always stores `now` into `lastClickTime`. -/
theorem bbhCallback_lastClickTime (a : Bool) (pr : Option String) (ho : Bool)
    (now : Nat) (cv : String) (s : ClickState) :
    (bbhCallback a pr ho now cv s).1.lastClickTime = now := rfl

/-- The v3 composed callback always stores `now` into `lastClickTime`. -/
theorem fb3Callback_lastClickTime (hp : Bool) (pr : Option String) (ho : Bool)
    (now : Nat) (cv : String) (s : ClickState) :
    (fb3Callback hp pr ho now cv s).1.lastClickTime = now := rfl

/-- One invocation of the composed callback opens a folder-choice surface
exactly when the gap to the stored last click time is under 300. -/
theorem bbhCallback_promptCount (a : Bool) (pr : Option String) (ho : Bool)
    (now : Nat) (cv : String) (s : ClickState) :
    promptCount (bbhCallback a pr ho now cv s).2 =
      if now - s.lastClickTime < 300 then 1 else 0 := by
  unfold bbhCallback promptCount
  by_cases h : now - s.lastClickTime < 300 <;> cases a <;> cases pr <;> cases ho <;>
    simp [h, List.countP_append, List.countP_cons, List.countP_nil]

/-- One invocation of the v3 composed callback opens a folder-choice surface
exactly when the gap to the stored last click time is under 300. -/
theorem fb3Callback_promptCount (hp : Bool) (pr : Option String) (ho : Bool)
    (now : Nat) (cv : String) (s : ClickState) :
    promptCount (fb3Callback hp pr ho now cv s).2 =
      if now - s.lastClickTime < 300 then 1 else 0 := by
  unfold fb3Callback promptCount
  by_cases h : now - s.lastClickTime < 300 <;> cases hp <;> cases pr <;> cases ho <;>
    simp [h, List.countP_append, List.countP_cons, List.countP_nil]

/-- A cancelled prompt (`null` result) never changes the widget value. -/
theorem bbhCallback_none_widgetValue (a ho : Bool) (now : Nat) (cv : String) (s : ClickState) :
    (bbhCallback a none ho now cv s).1.widgetValue = s.widgetValue := by
  unfold bbhCallback
  by_cases h : now - s.lastClickTime < 300 <;> cases a <;> simp [h]

/-- A cancelled prompt (`null` result) never changes the widget value in the
v3 composed callback either. -/
theorem fb3Callback_none_widgetValue (hp ho : Bool) (now : Nat) (cv : String) (s : ClickState) :
    (fb3Callback hp none ho now cv s).1.widgetValue = s.widgetValue := by
  unfold fb3Callback
  by_cases h : now - s.lastClickTime < 300 <;> cases hp <;> simp [h]

/-- One dialog step either preserves the committed path or commits a
non-empty one. -/
theorem dlgStep_committed (s : DlgState) (a : DlgAction) (p : String)
    (h : (dlgStep s a).committed = some p) :
    s.committed = some p ∨ p ≠ "" := by
  unfold dlgStep at h
  by_cases ho : s.isOpen
  · simp only [ho, if_true] at h
    cases a with
    | setInput t => exact Or.inl h
    | pressOk =>
        by_cases hp : trimString s.input = ""
        · rw [if_neg (not_not_intro hp)] at h
          exact Or.inl h
        · rw [if_pos hp] at h
          simp only [Option.some.injEq] at h
          refine Or.inr ?_
          rw [← h]
          exact hp
    | pressCancel => exact Or.inl h
  · simp only [ho, if_false] at h
    exact Or.inl h

/-- Auxiliary induction for `dlgRun_committed_ne_empty`. -/
theorem dlgRun_aux (acts : List DlgAction) (s : DlgState)
    (hs : ∀ q, s.committed = some q → q ≠ "") (p : String)
    (h : (acts.foldl dlgStep s).committed = some p) : p ≠ "" := by
  induction acts generalizing s with
  | nil => exact hs p h
  | cons a rest ih =>
      refine ih (dlgStep s a) ?_ h
      intro q hq
      rcases dlgStep_committed s a q hq with h1 | h2
      · exact hs q h1
      · exact h2

/-- Any path the dialog hands to its commit callback is non-empty: the OK
handler commits only a non-empty trimmed input. -/
theorem dlgRun_committed_ne_empty (acts : List DlgAction) (p : String)
    (h : (dlgRun acts).committed = some p) : p ≠ "" :=
  dlgRun_aux acts dlgInit (by intro q hq; simp [dlgInit] at hq) p h

/-- Pressing OK with a blank (whitespace-only) input is a complete no-op:
nothing is committed and the dialog stays open. -/
theorem dlgStep_ok_blank (s : DlgState) (h : trimString s.input = "") :
    dlgStep s DlgAction.pressOk = s := by
  unfold dlgStep
  by_cases ho : s.isOpen <;> simp [ho, h]

/-- Pressing Cancel never commits a path. -/
theorem dlgStep_cancel_committed (s : DlgState) :
    (dlgStep s DlgAction.pressCancel).committed = s.committed := by
  unfold dlgStep
  by_cases ho : s.isOpen <;> simp [ho]

/-- When the capability never appears, every run of the polling loop leaves
it still waiting. -/
theorem waitRun_never (n : Nat) : waitRun (fun _ => false) n = PollState.waiting := by
  induction n with
  | zero => rfl
  | succ k ih => simp [waitRun, waitStep, ih]

/-- Once attached, the polling loop stays attached. -/
theorem waitRun_attached_add (avail : Nat → Bool) (n k : Nat)
    (ha : waitRun avail n = PollState.attached) :
    waitRun avail (n + k) = PollState.attached := by
  induction k with
  | zero => exact ha
  | succ j ih =>
      rw [Nat.add_succ]
      show waitStep (avail (n + j)) (waitRun avail (n + j)) = PollState.attached
      rw [ih]
      rfl

/-- The run right after the capability appears attaches the button. -/
theorem waitRun_attached_of_avail (avail : Nat → Bool) (k : Nat)
    (h : avail k = true) : waitRun avail (k + 1) = PollState.attached := by
  show waitStep (avail k) (waitRun avail k) = PollState.attached
  rw [h]
  cases waitRun avail k <;> rfl

/-- The polling loop attaches only when the capability was visible at some
earlier run. -/
theorem waitRun_attached_avail (avail : Nat → Bool) (n : Nat)
    (h : waitRun avail n = PollState.attached) : ∃ k, k < n ∧ avail k = true := by
  induction n with
  | zero => exact absurd h (by simp [waitRun])
  | succ m ih =>
      cases hw : waitRun avail m with
      | attached =>
          obtain ⟨k, hk, ha⟩ := ih hw
          exact ⟨k, Nat.lt_succ_of_lt hk, ha⟩
      | waiting =>
          cases hav : avail m with
          | true => exact ⟨m, Nat.lt_succ_self m, hav⟩
          | false =>
              exfalso
              have hstep : waitRun avail (m + 1) = PollState.waiting := by
                show waitStep (avail m) (waitRun avail m) = PollState.waiting
                rw [hw, hav]
                rfl
              rw [hstep] at h
              exact PollState.noConfusion h

/-- Claim C1, counterexample.  The claim states that the widget value is
overwritten only on dialog OK, a successful native picker result, or a
NON-EMPTY manual entry.  In the prompt fallback of
`src/web/bc_button_handler.js` (lines 44-47) the guard is only
`path !== null`: confirming the prompt with the empty string — which is
neither of the three listed confirmations — still overwrites the widget
value, here changing it from `/old/value` to the empty string. -/
theorem c1_counterexample :
    ((bbhCallback false (some "") true 1100 "/old/value" ⟨1000, "/old/value"⟩).1.widgetValue = "")
      ∧ ("" : String) ≠ "/old/value" := by
  decide

/-- Claim C1, amended.  Cancellation or dismissal of any folder-choice
surface leaves the widget value untouched, and the value is overwritten only
after the user confirmed the surface; but on the raw prompt fallback any
non-null result counts as confirmation, including an empty entry.  The
conjuncts: a null prompt result leaves the value unchanged in both composed
callbacks; an aborted picker, and a cancelled follow-up prompt, commit
nothing; a cancelled manual input commits nothing; the dialog only ever
commits a non-empty path; Cancel commits nothing; and the composed callback
changes the value only when the prompt returned a non-null result. -/
theorem c1_amended :
    (∀ (a ho : Bool) (now : Nat) (cv : String) (s : ClickState),
        (bbhCallback a none ho now cv s).1.widgetValue = s.widgetValue) ∧
    (∀ (hp ho : Bool) (now : Nat) (cv : String) (s : ClickState),
        (fb3Callback hp none ho now cv s).1.widgetValue = s.widgetValue) ∧
    (∀ (pr : Option String) (cav : String) (ho : Bool) (w : Widget) (n : CanvasNode),
        v3PickerCommit none pr cav ho w n = (w, n, [])) ∧
    (∀ (dn cav : String) (ho : Bool) (w : Widget) (n : CanvasNode),
        v3PickerCommit (some dn) none cav ho w n = (w, n, [])) ∧
    (∀ w : Widget, showManualInput none w = w) ∧
    (∀ (acts : List DlgAction) (p : String),
        (dlgRun acts).committed = some p → p ≠ "") ∧
    (∀ s : DlgState, (dlgStep s DlgAction.pressCancel).committed = s.committed) ∧
    (∀ (a : Bool) (pr : Option String) (ho : Bool) (now : Nat) (cv : String) (s : ClickState),
        (bbhCallback a pr ho now cv s).1.widgetValue ≠ s.widgetValue →
          ∃ p, pr = some p) := by
  refine ⟨bbhCallback_none_widgetValue, fb3Callback_none_widgetValue,
    fun pr cav ho w n => rfl, fun dn cav ho w n => rfl, fun w => rfl,
    dlgRun_committed_ne_empty, dlgStep_cancel_committed, ?_⟩
  intro a pr ho now cv s hne
  cases pr with
  | some p => exact ⟨p, rfl⟩
  | none => exact absurd (bbhCallback_none_widgetValue a ho now cv s) hne

/-- Claim C1, witness for the amended theorem at concrete inputs: a
cancelled prompt leaves the value `/old` in place, a dialog interaction that
commits `/a` committed a non-empty path, and a value change implies a
non-null prompt result. -/
theorem c1_amended_witness :
    ((bbhCallback false none true 1100 "/old" ⟨1000, "/old"⟩).1.widgetValue = "/old") ∧
    ("/a" : String) ≠ "" ∧
    (∃ p, (some "/x" : Option String) = some p) :=
  ⟨c1_amended.1 false true 1100 "/old" ⟨1000, "/old"⟩,
   c1_amended.2.2.2.2.2.1 [DlgAction.setInput "/a", DlgAction.pressOk] "/a" (by decide),
   c1_amended.2.2.2.2.2.2.2 false (some "/x") true 1100 "/old" ⟨1000, "/old"⟩ (by decide)⟩

/-- Claim C2, counterexample.  The claim states that entering a
whitespace-only string on any manual-entry path is a no-op.  On the prompt
fallback of `src/web/bc_button_handler.js` (lines 44-47) a confirmed
whitespace-only entry is committed verbatim: the widget value changes from
`/old/value` to three spaces. -/
theorem c2_counterexample :
    ((bbhCallback false (some "   ") true 1100 "/old/value" ⟨1000, "/old/value"⟩).1.widgetValue
        = "   ")
      ∧ trimString "   " = "" ∧ ("   " : String) ≠ "/old/value" := by
  decide

/-- Claim C2, amended.  Empty or whitespace-only entries are no-ops in
`showManualInput` and in the modal dialog text input (OK with a blank input
neither commits nor closes), but the raw prompt fallbacks of
`bc_button_handler.js` and of the v3 double-click script commit any
confirmed (non-null) entry verbatim, including empty and whitespace-only
strings. -/
theorem c2_amended :
    (∀ (p : String) (w : Widget), trimString p = "" → showManualInput (some p) w = w) ∧
    (∀ s : DlgState, trimString s.input = "" → dlgStep s DlgAction.pressOk = s) ∧
    (∀ (p : String) (ho : Bool) (now : Nat) (cv : String) (s : ClickState),
        now - s.lastClickTime < 300 →
          (bbhCallback false (some p) ho now cv s).1.widgetValue = p) ∧
    (∀ (p : String) (ho : Bool) (now : Nat) (cv : String) (s : ClickState),
        now - s.lastClickTime < 300 →
          (fb3Callback false (some p) ho now cv s).1.widgetValue = p) := by
  refine ⟨?_, dlgStep_ok_blank, ?_, ?_⟩
  · intro p w hp
    simp [showManualInput, hp]
  · intro p ho now cv s h
    unfold bbhCallback
    simp [h]
  · intro p ho now cv s h
    unfold fb3Callback
    simp [h]

/-- Claim C2, witness for the amended theorem at concrete inputs. -/
theorem c2_amended_witness :
    (showManualInput (some "   ") ⟨"project_base_path", "/old", true⟩ =
        ⟨"project_base_path", "/old", true⟩) ∧
    (dlgStep ⟨"  ", true, none⟩ DlgAction.pressOk = ⟨"  ", true, none⟩) ∧
    ((bbhCallback false (some "/x") true 1100 "/old" ⟨1000, "/old"⟩).1.widgetValue = "/x") ∧
    ((fb3Callback false (some "/x") true 1100 "/old" ⟨1000, "/old"⟩).1.widgetValue = "/x") :=
  ⟨c2_amended.1 "   " ⟨"project_base_path", "/old", true⟩ (by decide),
   c2_amended.2.1 ⟨"  ", true, none⟩ (by decide),
   c2_amended.2.2.1 "/x" true 1100 "/old" ⟨1000, "/old"⟩ (by decide),
   c2_amended.2.2.2 "/x" true 1100 "/old" ⟨1000, "/old"⟩ (by decide)⟩

/-- Claim C3.  For a pair of clicks on the same widget at times `t1 ≤ t2`
(real clock timestamps, so at least 300 past the zero-initialised
`lastClickTime`), both detectors — the composed callback of
`bc_button_handler.js` and the one of the first `bc_folder_browser.js`
script — open exactly one folder-choice prompt from the pair when the gap is
strictly under 300, and zero prompts when the gap is 300 or more. -/
theorem c3_pair_prompt_threshold (a hp : Bool) (pr pr2 : Option String) (ho : Bool)
    (t1 t2 : Nat) (v v2 cv1 cv2 : String)
    (h1 : 300 ≤ t1) (_h12 : t1 ≤ t2) :
    (promptCount (bbhCallback a pr ho t1 cv1 ⟨0, v⟩).2 +
        promptCount (bbhCallback a pr2 ho t2 cv2 (bbhCallback a pr ho t1 cv1 ⟨0, v⟩).1).2 =
      if t2 - t1 < 300 then 1 else 0) ∧
    (promptCount (fb3Callback hp pr ho t1 cv1 ⟨0, v2⟩).2 +
        promptCount (fb3Callback hp pr2 ho t2 cv2 (fb3Callback hp pr ho t1 cv1 ⟨0, v2⟩).1).2 =
      if t2 - t1 < 300 then 1 else 0) := by
  have hns : ¬ (t1 - 0 < 300) := by omega
  constructor
  · rw [bbhCallback_promptCount, bbhCallback_promptCount, bbhCallback_lastClickTime]
    simp only [if_neg hns]
    omega
  · rw [fb3Callback_promptCount, fb3Callback_promptCount, fb3Callback_lastClickTime]
    simp only [if_neg hns]
    omega

/-- Claim C3, witness: clicks at 1000 and 1100 (gap 100) yield one prompt. -/
theorem c3_witness :
    (promptCount (bbhCallback false none true 1000 "/v" ⟨0, "/v"⟩).2 +
        promptCount (bbhCallback false none true 1100 "/v"
          (bbhCallback false none true 1000 "/v" ⟨0, "/v"⟩).1).2 =
      if 1100 - 1000 < 300 then 1 else 0) ∧
    (promptCount (fb3Callback true none true 1000 "/v" ⟨0, "/v"⟩).2 +
        promptCount (fb3Callback true none true 1100 "/v"
          (fb3Callback true none true 1000 "/v" ⟨0, "/v"⟩).1).2 =
      if 1100 - 1000 < 300 then 1 else 0) :=
  c3_pair_prompt_threshold false true none none true 1000 1100 "/v" "/v" "/v" "/v"
    (by decide) (by decide)

/-- Claim C4, counterexample.  The claim states that every commit invokes
the pre-existing callback with the new path and marks the node for redraw.
The `showDirectoryPicker` commit of the first `bc_folder_browser.js` script
(lines 37-48) sets the value to `/new/path`, but applies the pre-existing
callback to the original click arguments — it receives the stale
`/old/path`, not the new path — and leaves the dirty flag false. -/
theorem c4_counterexample :
    v3PickerCommit (some "myfolder") (some "/new/path") "/old/path" true
        ⟨"project_base_path", "/old/path", true⟩ ⟨false⟩ =
      (⟨"project_base_path", "/new/path", true⟩, ⟨false⟩,
        [UiEvent.originalCallback "/old/path" "/new/path"]) ∧
    ("/old/path" : String) ≠ "/new/path" := by
  decide

/-- Claim C4, amended.  The `openFolderDialog` commit sets the widget value
to the new path, invokes the pre-existing callback with the new path when
one exists, and marks the node for redraw; but the picker commit of the v3
double-click script sets the value and then invokes the pre-existing
callback with the original click argument (not the new path) and does not
touch the dirty flag. -/
theorem c4_amended (w : Widget) (n : CanvasNode) (p dirName clickArg : String)
    (ho : Bool) (hp : p ≠ "") :
    ((dialogCommit w n p).1.value = p ∧ (dialogCommit w n p).2.1.dirty = true ∧
      (w.hasCallback = true →
        (dialogCommit w n p).2.2 = [UiEvent.originalCallback p p])) ∧
    (v3PickerCommit (some dirName) (some p) clickArg ho w n =
      ({ w with value := p }, n,
        if ho then [UiEvent.originalCallback clickArg p] else [])) := by
  refine ⟨⟨rfl, rfl, ?_⟩, ?_⟩
  · intro hc
    simp [dialogCommit, hc]
  · simp [v3PickerCommit, hp]

/-- Claim C4, witness for the amended theorem at concrete inputs. -/
theorem c4_amended_witness :
    ((dialogCommit ⟨"input_path", "/old", true⟩ ⟨false⟩ "/new").1.value = "/new" ∧
      (dialogCommit ⟨"input_path", "/old", true⟩ ⟨false⟩ "/new").2.1.dirty = true ∧
      ((⟨"input_path", "/old", true⟩ : Widget).hasCallback = true →
        (dialogCommit ⟨"input_path", "/old", true⟩ ⟨false⟩ "/new").2.2 =
          [UiEvent.originalCallback "/new" "/new"])) ∧
    (v3PickerCommit (some "d") (some "/new") "/old" true
        ⟨"input_path", "/old", true⟩ ⟨false⟩ =
      ({ (⟨"input_path", "/old", true⟩ : Widget) with value := "/new" }, ⟨false⟩,
        if true then [UiEvent.originalCallback "/old" "/new"] else [])) :=
  c4_amended ⟨"input_path", "/old", true⟩ ⟨false⟩ "/new" "d" "/old" true (by decide)

/-- Claim C5.  When no widget named `project_base_path` exists on the node,
the attachment code of `src/unnamed/part_002` and of
`src/web/bc_button_handler.js` adds no button, wraps no handler, prepends no
menu entry, reports the missing widget on the console, and returns normally
(the embedded functions are total, so node construction completes). -/
theorem c5_missing_widget_noop (node : AttachNode) (menu : List (Option MenuEntry))
    (h : node.widgets.find? isProjectPathWidget = none) :
    fbOnNodeCreatedAttach node =
        (node, ["🐻 Bear Cave: project_base_path widget not found"]) ∧
    bbhAttach node = (node, ["🐻 Bear Cave: project_base_path widget not found"]) ∧
    fbGetExtraMenuOptions node menu = menu := by
  unfold fbOnNodeCreatedAttach bbhAttach fbGetExtraMenuOptions
  rw [h]
  exact ⟨rfl, rfl, rfl⟩

/-- Claim C5, witness: a node whose only widget is `input_path`. -/
theorem c5_witness :
    fbOnNodeCreatedAttach ⟨[⟨"input_path", false⟩]⟩ =
        (⟨[⟨"input_path", false⟩]⟩, ["🐻 Bear Cave: project_base_path widget not found"]) ∧
    bbhAttach ⟨[⟨"input_path", false⟩]⟩ =
        (⟨[⟨"input_path", false⟩]⟩, ["🐻 Bear Cave: project_base_path widget not found"]) ∧
    fbGetExtraMenuOptions ⟨[⟨"input_path", false⟩]⟩ [] = [] :=
  c5_missing_widget_noop ⟨[⟨"input_path", false⟩]⟩ [] (by decide)

/-- Claim C6, counterexample.  The claim states every widget- or
capability-wait terminates after a bounded number of attempts or a deadline
even when the awaited capability never appears.  The `waitForAPI` loop of
`src/unnamed/part_001` (lines 639-669) reschedules itself unconditionally
when the capability is absent: when the capability never appears, no number
of scheduled runs ever reaches the attached state. -/
theorem c6_counterexample :
    ¬ ∃ bound : Nat, waitRun (fun _ => false) bound = PollState.attached := by
  rintro ⟨b, hb⟩
  rw [waitRun_never b] at hb
  exact PollState.noConfusion hb

/-- Claim C6, amended.  The `waitForAPI` poll runs at a fixed interval with
no attempt bound or deadline: it attaches only when the capability was
visible at some earlier run, and it does terminate — staying attached — from
the first run after the capability appears. -/
theorem c6_amended :
    (∀ (avail : Nat → Bool) (n : Nat), waitRun avail n = PollState.attached →
        ∃ k, k < n ∧ avail k = true) ∧
    (∀ (avail : Nat → Bool) (k : Nat), avail k = true →
        ∀ m, k + 1 ≤ m → waitRun avail m = PollState.attached) := by
  refine ⟨waitRun_attached_avail, ?_⟩
  intro avail k hk m hm
  have h1 : waitRun avail (k + 1) = PollState.attached := waitRun_attached_of_avail avail k hk
  have h2 : k + 1 + (m - (k + 1)) = m := by omega
  calc waitRun avail m = waitRun avail (k + 1 + (m - (k + 1))) := by rw [h2]
    _ = PollState.attached := waitRun_attached_add avail (k + 1) (m - (k + 1)) h1

/-- Claim C6, witness: a capability appearing at run 2 is seen before run 4
and the loop is attached by run 5. -/
theorem c6_amended_witness :
    (∃ k, k < 4 ∧ (fun i => i == 2) k = true) ∧
      waitRun (fun i => i == 2) 5 = PollState.attached :=
  ⟨c6_amended.1 (fun i => i == 2) 4 (by decide),
   c6_amended.2 (fun i => i == 2) 2 (by decide) 5 (by decide)⟩

/-- Claim C7.  For every node type whose name differs from the single target
`BC_LORA_DEFINE`, each registered `beforeRegisterNodeDef` hook returns the
prototype unchanged — in particular `onNodeCreated`, `onDblClick`,
`getExtraMenuOptions` and the widget set are untouched.  This covers the
single-target gate of `bc_button_handler.js` (shared by parts 002 and 003),
the gate of the third `bc_folder_browser.js` script with its explicit
`BC_LOAD_IMAGES` block, and the three-hook wrap of part 000. -/
theorem c7_other_node_types_untouched {A H : Type} (setup : A → A)
    (wrapCreate wrapDbl wrapMenu : Option H → Option H)
    (nodeName : String) (nt : A) (np : NodeProto H)
    (h : nodeName ≠ "BC_LORA_DEFINE") :
    bbhBeforeRegisterNodeDef setup nodeName nt = nt ∧
    fb3BeforeRegisterNodeDef setup nodeName nt = nt ∧
    part0BeforeRegisterNodeDef wrapCreate wrapDbl wrapMenu nodeName np = np := by
  unfold bbhBeforeRegisterNodeDef fb3BeforeRegisterNodeDef part0BeforeRegisterNodeDef
  by_cases h2 : nodeName = "BC_LOAD_IMAGES" <;> simp [h, h2]

/-- Claim C7, witness at the node type name `BC_SAVE_IMAGES`. -/
theorem c7_witness :
    bbhBeforeRegisterNodeDef (fun m => m + 1) "BC_SAVE_IMAGES" 7 = 7 ∧
    fb3BeforeRegisterNodeDef (fun m => m + 1) "BC_SAVE_IMAGES" 7 = 7 ∧
    part0BeforeRegisterNodeDef (fun _ => some 1) (fun _ => some 2) (fun _ => some 3)
        "BC_SAVE_IMAGES" (⟨none, none, none, ["project_base_path"]⟩ : NodeProto Nat) =
      ⟨none, none, none, ["project_base_path"]⟩ :=
  c7_other_node_types_untouched (fun m => m + 1) (fun _ => some 1) (fun _ => some 2)
    (fun _ => some 3) "BC_SAVE_IMAGES" 7 ⟨none, none, none, ["project_base_path"]⟩
    (by decide)

/-- Claim C8.  Committing the same path twice through the
`openFolderDialog` commit closure is idempotent on the widget value, while
the pre-existing callback is invoked once per commit — twice in total, never
deduplicated. -/
theorem c8_commit_idempotent_not_deduped (w : Widget) (n : CanvasNode) (p : String)
    (hc : w.hasCallback = true) :
    (dialogCommit (dialogCommit w n p).1 (dialogCommit w n p).2.1 p).1.value =
        (dialogCommit w n p).1.value ∧
    (dialogCommit w n p).2.2 ++
        (dialogCommit (dialogCommit w n p).1 (dialogCommit w n p).2.1 p).2.2 =
      [UiEvent.originalCallback p p, UiEvent.originalCallback p p] := by
  constructor
  · rfl
  · simp [dialogCommit, hc]

/-- Claim C8, witness at a concrete widget and path. -/
theorem c8_witness :
    (dialogCommit (dialogCommit ⟨"input_path", "/old", true⟩ ⟨false⟩ "/new").1
          (dialogCommit ⟨"input_path", "/old", true⟩ ⟨false⟩ "/new").2.1 "/new").1.value =
        (dialogCommit ⟨"input_path", "/old", true⟩ ⟨false⟩ "/new").1.value ∧
    (dialogCommit ⟨"input_path", "/old", true⟩ ⟨false⟩ "/new").2.2 ++
        (dialogCommit (dialogCommit ⟨"input_path", "/old", true⟩ ⟨false⟩ "/new").1
          (dialogCommit ⟨"input_path", "/old", true⟩ ⟨false⟩ "/new").2.1 "/new").2.2 =
      [UiEvent.originalCallback "/new" "/new", UiEvent.originalCallback "/new" "/new"] :=
  c8_commit_idempotent_not_deduped ⟨"input_path", "/old", true⟩ ⟨false⟩ "/new" (by decide)

/-- Claim C9, counterexample.  The claim states every wrapped handler
invokes the prior handler first and then performs the additional behavior.
The composed widget callback of `bc_button_handler.js` does the opposite:
on a double-click that commits a prompt entry, the prompt opens and the
widget value is already updated before the prior callback runs, so the
source-order trace differs from the prior-first trace at this input. -/
theorem c9_counterexample :
    bbhCallback false (some "/new/path") true 1100 "/old" ⟨1000, "/old"⟩ ≠
      bbhCallbackPriorFirst false (some "/new/path") true 1100 "/old" ⟨1000, "/old"⟩ := by
  decide

/-- Claim C9, amended.  Every wrapped hook stores the prior handler and
invokes it on every invocation with the host-supplied arguments; the
node-creation wrapper calls the prior first and returns its result, the
mouse wrapper calls the prior first and then handles the double-click, while
the composed widget callbacks perform the double-click behavior first and
invoke the prior handler last (its invocation closes every trace). -/
theorem c9_amended :
    (∀ {N R : Type} (attach : N → N) (f : N → N × R) (n : N),
        wrapOnNodeCreated attach (some f) n = (attach (f n).1, some (f n).2)) ∧
    (∀ ev : MouseEventKind,
        wrappedMouse true ev =
          UiEvent.priorMouse :: (if isDoubleClick ev then [UiEvent.dialogOpened] else [])) ∧
    (∀ (a : Bool) (pr : Option String) (now : Nat) (cv : String) (s : ClickState),
        ∃ evs0, (bbhCallback a pr true now cv s).2 =
          evs0 ++ [UiEvent.originalCallback cv (bbhCallback a pr true now cv s).1.widgetValue]) ∧
    (∀ (hp : Bool) (pr : Option String) (now : Nat) (cv : String) (s : ClickState),
        ∃ evs0, (fb3Callback hp pr true now cv s).2 =
          evs0 ++ [UiEvent.originalCallback cv (fb3Callback hp pr true now cv s).1.widgetValue]) := by
  refine ⟨fun attach f n => rfl, fun ev => rfl, ?_, ?_⟩
  · intro a pr now cv s
    unfold bbhCallback
    by_cases h : now - s.lastClickTime < 300
    · cases a
      · cases pr with
        | none => exact ⟨[UiEvent.folderPromptOpened], by simp [h]⟩
        | some path => exact ⟨[UiEvent.folderPromptOpened], by simp [h]⟩
      · exact ⟨[UiEvent.folderPromptOpened], by simp [h]⟩
    · exact ⟨[], by simp [h]⟩
  · intro hp pr now cv s
    unfold fb3Callback
    by_cases h : now - s.lastClickTime < 300
    · cases hp
      · cases pr with
        | none => exact ⟨[UiEvent.folderPromptOpened], by simp [h]⟩
        | some path =>
            exact ⟨[UiEvent.folderPromptOpened, UiEvent.originalCallback cv path],
              by simp [h]⟩
      · exact ⟨[UiEvent.folderPromptOpened], by simp [h]⟩
    · exact ⟨[], by simp [h]⟩

/-- Claim C9, witness for the amended theorem at concrete inputs. -/
theorem c9_amended_witness :
    (wrapOnNodeCreated Nat.succ (some (fun m : Nat => (m + 2, m))) 3 =
        (Nat.succ ((fun m : Nat => (m + 2, m)) 3).1, some ((fun m : Nat => (m + 2, m)) 3).2)) ∧
    (wrappedMouse true MouseEventKind.dblclick =
        UiEvent.priorMouse ::
          (if isDoubleClick MouseEventKind.dblclick then [UiEvent.dialogOpened] else [])) ∧
    (∃ evs0, (bbhCallback false (some "/p") true 1100 "/c" ⟨1000, "/v"⟩).2 =
        evs0 ++ [UiEvent.originalCallback "/c"
          (bbhCallback false (some "/p") true 1100 "/c" ⟨1000, "/v"⟩).1.widgetValue]) :=
  ⟨c9_amended.1 Nat.succ (fun m : Nat => (m + 2, m)) 3,
   c9_amended.2.1 MouseEventKind.dblclick,
   c9_amended.2.2.1 false (some "/p") 1100 "/c" ⟨1000, "/v"⟩⟩

/-- Claim C10.  The detector stores the click time on every click — also on
the click that completed a double-click — and is never reset: three clicks
at times `t1 ≤ t2 ≤ t3` with both consecutive gaps under 300 open the
folder-choice prompt twice (on the second and on the third click), and after
each click the stored time equals that click's timestamp. -/
theorem c10_detector_never_reset (a : Bool) (pr pr2 pr3 : Option String) (ho : Bool)
    (t1 t2 t3 : Nat) (v cv : String)
    (h1 : 300 ≤ t1) (_h12 : t1 ≤ t2) (_h23 : t2 ≤ t3)
    (hd2 : t2 - t1 < 300) (hd3 : t3 - t2 < 300) :
    promptCount (bbhCallback a pr ho t1 cv ⟨0, v⟩).2 +
      promptCount (bbhCallback a pr2 ho t2 cv (bbhCallback a pr ho t1 cv ⟨0, v⟩).1).2 +
      promptCount (bbhCallback a pr3 ho t3 cv
        (bbhCallback a pr2 ho t2 cv (bbhCallback a pr ho t1 cv ⟨0, v⟩).1).1).2 = 2 ∧
    (bbhCallback a pr ho t1 cv ⟨0, v⟩).1.lastClickTime = t1 ∧
    (bbhCallback a pr2 ho t2 cv (bbhCallback a pr ho t1 cv ⟨0, v⟩).1).1.lastClickTime = t2 ∧
    (bbhCallback a pr3 ho t3 cv
        (bbhCallback a pr2 ho t2 cv (bbhCallback a pr ho t1 cv ⟨0, v⟩).1).1).1.lastClickTime
      = t3 := by
  refine ⟨?_, rfl, rfl, rfl⟩
  rw [bbhCallback_promptCount, bbhCallback_promptCount, bbhCallback_promptCount,
    bbhCallback_lastClickTime, bbhCallback_lastClickTime]
  have hns : ¬ (t1 - 0 < 300) := by omega
  rw [if_neg hns, if_pos hd2, if_pos hd3]

/-- Claim C10, witness: clicks at 1000, 1100 and 1200 open two prompts. -/
theorem c10_witness :
    promptCount (bbhCallback false none true 1000 "/v" ⟨0, "/v"⟩).2 +
      promptCount (bbhCallback false none true 1100 "/v"
        (bbhCallback false none true 1000 "/v" ⟨0, "/v"⟩).1).2 +
      promptCount (bbhCallback false none true 1200 "/v"
        (bbhCallback false none true 1100 "/v"
          (bbhCallback false none true 1000 "/v" ⟨0, "/v"⟩).1).1).2 = 2 ∧
    (bbhCallback false none true 1000 "/v" ⟨0, "/v"⟩).1.lastClickTime = 1000 ∧
    (bbhCallback false none true 1100 "/v"
        (bbhCallback false none true 1000 "/v" ⟨0, "/v"⟩).1).1.lastClickTime = 1100 ∧
    (bbhCallback false none true 1200 "/v"
        (bbhCallback false none true 1100 "/v"
          (bbhCallback false none true 1000 "/v" ⟨0, "/v"⟩).1).1).1.lastClickTime = 1200 :=
  c10_detector_never_reset false none none none true 1000 1100 1200 "/v" "/v"
    (by decide) (by decide) (by decide) (by decide) (by decide)

end BearCave
